import Mathlib

/-!
Verification development for the IntelRouter hybrid routing and
usage-governance engine.  The persisted schemas (queries, usage_logs,
ml_data, model_metadata) are embedded from the SQL setup scripts; the
backend decision logic (confidence gate, override budget tracker, usage
ledger, promotion pipeline, feedback collector), whose Python sources are
not part of the tree, is modelled from the specification.  The frontend
API client is embedded by its exported method names.
-/

namespace IntelRouter

/-- Difficulty tier of a query, as constrained by the ml_data CHECK
constraint and used throughout the frontend. -/
inductive Tier where
  | EASY
  | MEDIUM
  | HARD
deriving DecidableEq, Repr

/-- Provenance of the final tier decision, as stored in the
queries.routing_source column and read by the frontend. -/
inductive RoutingSource where
  | algorithmic
  | ml
  | user_override
deriving DecidableEq, Repr

/-- Result of the Confidence Gate decision fusion: the final tier, its
provenance, and the low-confidence observability flag. -/
structure GateResult where
  final_label : Tier
  routing_source : RoutingSource
  low_confidence : Bool
deriving DecidableEq, Repr

/-- Modelled from the spec: the safe default tier used on the UNCERTAIN
path is the most conservative (most expensive) tier, HARD. -/
def fallbackTier : Tier := Tier.HARD

/-- Default confidence threshold, from model_metadata_setup.sql
(confidence_threshold DECIMAL(3,2) NOT NULL DEFAULT 0.6). -/
def defaultConfidenceThreshold : ℚ := 6 / 10

/-- Modelled from the spec: the Confidence Gate (the backend
app/router/hybrid_router.py is not in the tree).  Policy, in order:
an algorithmic label is authoritative; else a learned prediction with
confidence at or above the threshold is used; else the gate falls back
to the conservative tier with routing_source ml and the low-confidence
flag set.  The learned output is None when the Learned Classifier is
unavailable (no active model, or artifact load failure). -/
def confidenceGate (algoOut : Option Tier) (mlOut : Option (Tier × ℚ))
    (threshold : ℚ) : GateResult :=
  match algoOut with
  | some t =>
      { final_label := t, routing_source := RoutingSource.algorithmic,
        low_confidence := false }
  | none =>
      match mlOut with
      | some (t, c) =>
          if threshold ≤ c then
            { final_label := t, routing_source := RoutingSource.ml,
              low_confidence := false }
          else
            { final_label := fallbackTier, routing_source := RoutingSource.ml,
              low_confidence := true }
      | none =>
          { final_label := fallbackTier, routing_source := RoutingSource.ml,
            low_confidence := true }

end IntelRouter

namespace IntelRouter

/-- C1: whenever the Algorithmic Classifier returns a label, the final
decision has routing_source algorithmic and that label, for every possible
output of the Learned Classifier. -/
theorem algorithmic_label_is_authoritative (t : Tier)
    (mlOut : Option (Tier × ℚ)) (threshold : ℚ) :
    (confidenceGate (some t) mlOut threshold).routing_source
        = RoutingSource.algorithmic
    ∧ (confidenceGate (some t) mlOut threshold).final_label = t :=
  ⟨rfl, rfl⟩

/-- C2: when the Algorithmic Classifier abstains and the Learned
Classifier is available with confidence at or above the threshold, the
final decision has routing_source ml and the learned label. -/
theorem ml_label_used_when_confident (mlT : Tier) (c threshold : ℚ)
    (h : threshold ≤ c) :
    (confidenceGate none (some (mlT, c)) threshold).routing_source
        = RoutingSource.ml
    ∧ (confidenceGate none (some (mlT, c)) threshold).final_label = mlT := by
  simp [confidenceGate, h]

/-- Witness for C2 at the default threshold 0.6 with confidence 0.7. -/
theorem ml_label_used_when_confident_witness :
    defaultConfidenceThreshold ≤ (7 : ℚ) / 10
    ∧ ((confidenceGate none (some (Tier.MEDIUM, (7 : ℚ) / 10))
          defaultConfidenceThreshold).routing_source = RoutingSource.ml
       ∧ (confidenceGate none (some (Tier.MEDIUM, (7 : ℚ) / 10))
          defaultConfidenceThreshold).final_label = Tier.MEDIUM) :=
  ⟨by norm_num [defaultConfidenceThreshold],
   ml_label_used_when_confident Tier.MEDIUM ((7 : ℚ) / 10)
     defaultConfidenceThreshold (by norm_num [defaultConfidenceThreshold])⟩

/-- C3: when the Algorithmic Classifier abstains and the Learned
Classifier is unavailable or below threshold, the gate returns the
conservative fallback tier with routing_source ml and the low-confidence
flag, and never an error (the gate is a total function). -/
theorem uncertain_falls_back_conservative (mlOut : Option (Tier × ℚ))
    (threshold : ℚ)
    (h : mlOut = none ∨ ∃ t c, mlOut = some (t, c) ∧ c < threshold) :
    confidenceGate none mlOut threshold =
      { final_label := fallbackTier, routing_source := RoutingSource.ml,
        low_confidence := true } := by
  rcases h with h | ⟨t, c, rfl, hc⟩
  · subst h; rfl
  · simp [confidenceGate, not_le.mpr hc]

/-- Witness for C3 on the unavailable branch (no active model). -/
theorem uncertain_falls_back_conservative_witness :
    confidenceGate none none defaultConfidenceThreshold =
      { final_label := fallbackTier, routing_source := RoutingSource.ml,
        low_confidence := true } :=
  uncertain_falls_back_conservative none defaultConfidenceThreshold
    (Or.inl rfl)

end IntelRouter

namespace IntelRouter

/-- Row of the usage_logs table (database_setup.sql): user_id, model_name,
difficulty, tokens_in, tokens_out, total_tokens, cost, created_at.
Timestamps are seconds since the epoch, UTC. -/
structure UsageRecord where
  user_id : String
  model_name : String
  difficulty : Tier
  tokens_in : Nat
  tokens_out : Nat
  total_tokens : Nat
  cost : ℚ
  created_at : Nat
deriving DecidableEq, Repr

/-- Seconds in one day, used to derive the UTC-day window from a
timestamp. -/
def secondsPerDay : Nat := 86400

/-- UTC day index of a timestamp (seconds since the epoch). -/
def utcDay (ts : Nat) : Nat := ts / secondsPerDay

/-- Daily token cap, from the SETUP.md environment
(DAILY_TOKEN_LIMIT=100000), also hardcoded as the limit in the Usage
page of the frontend. -/
def dailyTokenLimit : Nat := 100000

/-- Modelled from the spec: the DailyUsageWindow, a windowed aggregation
over UsageRecord timestamps (not a mutable counter): the sum of
total_tokens of the committed records of the user whose created_at falls
in the same UTC day as now. -/
def dailyUsage (log : List UsageRecord) (uid : String) (now : Nat) : Nat :=
  ((log.filter fun r =>
      decide (r.user_id = uid ∧ utcDay r.created_at = utcDay now)).map
    fun r => r.total_tokens).sum

/-- Row of the queries table (database_setup.sql): the persisted
RoutingDecision.  The schema has no query-text column. -/
structure Decision where
  user_id : String
  algorithmic_label : Option Tier
  ml_label : Option Tier
  final_label : Tier
  routing_source : RoutingSource
  model_name : String
  created_at : Nat
deriving DecidableEq, Repr

/-- Fixed daily override quota (3), shown as the total by the frontend
OverrideWidget and QueryInput defaults. -/
def overrideQuota : Nat := 3

/-- Modelled from the spec: the OverrideBudget, derived from persisted
RoutingDecision rows with routing_source user_override within the current
UTC day for the user. -/
def overridesToday (decisions : List Decision) (uid : String) (now : Nat) :
    Nat :=
  (decisions.filter fun d =>
    decide (d.user_id = uid ∧ d.routing_source = RoutingSource.user_override
      ∧ utcDay d.created_at = utcDay now)).length

/-- Response payload of a successfully routed query: final tier, routing
source, whether a requested override was rejected, and the low-confidence
flag. -/
structure QueryResponse where
  final_label : Tier
  routing_source : RoutingSource
  override_rejected : Bool
  low_confidence : Bool
deriving DecidableEq, Repr

/-- Outcome of a request: either the distinct budget-exceeded rejection
or a successful response. -/
inductive RequestResult where
  | budget_exceeded
  | ok (resp : QueryResponse)
deriving DecidableEq, Repr

/-- Modelled from the spec: the per-query request pipeline.  The first
component records whether the downstream model backend was invoked.  A
user at or over the daily token cap is rejected with the distinct
budget-exceeded signal before any downstream call; otherwise the
Confidence Gate result is computed, and a requested override is accepted
only while the override budget has room, else the override is dropped,
the gate result is used and the response flags override_rejected. -/
def routeQuery (decisions : List Decision) (usage : List UsageRecord)
    (uid : String) (now : Nat) (algoOut : Option Tier)
    (mlOut : Option (Tier × ℚ)) (threshold : ℚ)
    (overrideReq : Option Tier) : Bool × RequestResult :=
  if dailyTokenLimit ≤ dailyUsage usage uid now then
    (false, RequestResult.budget_exceeded)
  else
    let gate := confidenceGate algoOut mlOut threshold
    match overrideReq with
    | none =>
        (true, RequestResult.ok
          { final_label := gate.final_label,
            routing_source := gate.routing_source,
            override_rejected := false,
            low_confidence := gate.low_confidence })
    | some t =>
        if overridesToday decisions uid now < overrideQuota then
          (true, RequestResult.ok
            { final_label := t,
              routing_source := RoutingSource.user_override,
              override_rejected := false, low_confidence := false })
        else
          (true, RequestResult.ok
            { final_label := gate.final_label,
              routing_source := gate.routing_source,
              override_rejected := true,
              low_confidence := gate.low_confidence })

/-- Helper: when every record of the user predates the current UTC day,
the daily usage window is empty, so its sum is zero. -/
theorem dailyUsage_eq_zero_of_prior_days (usage : List UsageRecord)
    (uid : String) (now : Nat)
    (h : ∀ r ∈ usage, r.user_id = uid → utcDay r.created_at < utcDay now) :
    dailyUsage usage uid now = 0 := by
  unfold dailyUsage
  have hfil : (usage.filter fun r =>
      decide (r.user_id = uid ∧ utcDay r.created_at = utcDay now)) = [] := by
    rw [List.filter_eq_nil_iff]
    intro r hr
    simp only [decide_eq_true_eq, not_and]
    intro hu
    exact Nat.ne_of_lt (h r hr hu)
  rw [hfil]
  rfl

/-- C4: a request from a user whose committed total_tokens in the current
UTC day reach the daily cap is rejected with the distinct budget-exceeded
signal and no downstream model call; and a request after UTC midnight
(all prior records on earlier UTC days) is admitted regardless of the
previous totals, the window being recomputed over UsageRecord
timestamps. -/
theorem daily_budget_enforced (decisions : List Decision)
    (usage : List UsageRecord) (uid : String) (now : Nat)
    (algoOut : Option Tier) (mlOut : Option (Tier × ℚ)) (threshold : ℚ)
    (overrideReq : Option Tier) :
    (dailyTokenLimit ≤ dailyUsage usage uid now →
      routeQuery decisions usage uid now algoOut mlOut threshold overrideReq
        = (false, RequestResult.budget_exceeded))
    ∧ ((∀ r ∈ usage, r.user_id = uid → utcDay r.created_at < utcDay now) →
      dailyUsage usage uid now = 0
      ∧ (routeQuery decisions usage uid now algoOut mlOut threshold
          overrideReq).2 ≠ RequestResult.budget_exceeded
      ∧ (routeQuery decisions usage uid now algoOut mlOut threshold
          overrideReq).1 = true) := by
  constructor
  · intro h
    unfold routeQuery
    rw [if_pos h]
  · intro h
    have hz := dailyUsage_eq_zero_of_prior_days usage uid now h
    have hlt : ¬ dailyTokenLimit ≤ dailyUsage usage uid now := by
      rw [hz]
      decide
    refine ⟨hz, ?_⟩
    unfold routeQuery
    rw [if_neg hlt]
    rcases overrideReq with _ | t
    · exact ⟨by simp, rfl⟩
    · by_cases hq : overridesToday decisions uid now < overrideQuota
      · simp [hq]
      · simp [hq]

/-- Example ledger for the C4 witness: one committed record of user u at
the daily cap, written at timestamp 1000 (UTC day 0). -/
def sampleFullDayLedger : List UsageRecord :=
  [{ user_id := "u", model_name := "m", difficulty := Tier.EASY,
     tokens_in := 60000, tokens_out := 40000, total_tokens := 100000,
     cost := 1, created_at := 1000 }]

/-- Witness for C4: a user with 100000 tokens committed today is
rejected without a downstream call, and the same user just after UTC
midnight (timestamp 86400, UTC day 1) is admitted. -/
theorem daily_budget_enforced_witness :
    (routeQuery [] sampleFullDayLedger "u" 2000 (some Tier.EASY) none
        defaultConfidenceThreshold none
      = (false, RequestResult.budget_exceeded))
    ∧ (routeQuery [] sampleFullDayLedger "u" 86400 (some Tier.EASY) none
        defaultConfidenceThreshold none).2
      ≠ RequestResult.budget_exceeded := by
  constructor
  · exact (daily_budget_enforced [] sampleFullDayLedger "u" 2000
      (some Tier.EASY) none defaultConfidenceThreshold none).1 (by decide)
  · exact ((daily_budget_enforced [] sampleFullDayLedger "u" 86400
      (some Tier.EASY) none defaultConfidenceThreshold none).2
        (by decide)).2.1

/-- C5: a user with exactly overrideQuota accepted persisted overrides in
the current UTC day who requests one more override still gets a
successful response, with the final tier and source from the Confidence
Gate result and the override_rejected flag set. -/
theorem override_quota_enforced (decisions : List Decision)
    (usage : List UsageRecord) (uid : String) (now : Nat)
    (algoOut : Option Tier) (mlOut : Option (Tier × ℚ)) (threshold : ℚ)
    (t : Tier)
    (hq : overridesToday decisions uid now = overrideQuota)
    (hb : dailyUsage usage uid now < dailyTokenLimit) :
    routeQuery decisions usage uid now algoOut mlOut threshold (some t)
      = (true, RequestResult.ok
          { final_label := (confidenceGate algoOut mlOut threshold).final_label,
            routing_source :=
              (confidenceGate algoOut mlOut threshold).routing_source,
            override_rejected := true,
            low_confidence :=
              (confidenceGate algoOut mlOut threshold).low_confidence }) := by
  unfold routeQuery
  rw [if_neg (not_le.mpr hb)]
  simp [hq]

/-- Example decision log for the C5 witness: three persisted
user_override decisions of user u within UTC day 0. -/
def sampleOverrideLog : List Decision :=
  [{ user_id := "u", algorithmic_label := none, ml_label := none,
     final_label := Tier.HARD,
     routing_source := RoutingSource.user_override, model_name := "m",
     created_at := 100 },
   { user_id := "u", algorithmic_label := none, ml_label := none,
     final_label := Tier.EASY,
     routing_source := RoutingSource.user_override, model_name := "m",
     created_at := 200 },
   { user_id := "u", algorithmic_label := none, ml_label := none,
     final_label := Tier.MEDIUM,
     routing_source := RoutingSource.user_override, model_name := "m",
     created_at := 300 }]

/-- Witness for C5: a user with three accepted overrides today submits a
fourth override; the response succeeds with the gate result and the
override_rejected flag. -/
theorem override_quota_enforced_witness :
    overridesToday sampleOverrideLog "u" 400 = overrideQuota
    ∧ routeQuery sampleOverrideLog [] "u" 400 (some Tier.EASY) none
        defaultConfidenceThreshold (some Tier.HARD)
      = (true, RequestResult.ok
          { final_label := Tier.EASY,
            routing_source := RoutingSource.algorithmic,
            override_rejected := true, low_confidence := false }) := by
  refine ⟨by decide, ?_⟩
  exact override_quota_enforced sampleOverrideLog [] "u" 400
    (some Tier.EASY) none defaultConfidenceThreshold Tier.HARD (by decide)
    (by decide)

end IntelRouter

namespace IntelRouter

/-- Row of the model_metadata table (model_metadata_setup.sql): version,
accuracy, f1_score, confidence_threshold, training_timestamp,
is_active. -/
structure ModelMetadataRow where
  version : String
  accuracy : ℚ
  f1_score : ℚ
  confidence_threshold : ℚ
  training_timestamp : Nat
  is_active : Bool
deriving DecidableEq, Repr

/-- Modelled from the spec: atomic promotion by the Training & Promotion
Pipeline (training/train.py is not in the tree): in one transaction the
new row is inserted with is_active true and is_active is flipped to
false on the previously active row. -/
def promote (rows : List ModelMetadataRow) (newRow : ModelMetadataRow) :
    List ModelMetadataRow :=
  { newRow with is_active := true } ::
    rows.map fun r => if r.is_active then { r with is_active := false } else r

/-- Number of rows of the model_metadata table with is_active true. -/
def countActive (rows : List ModelMetadataRow) : Nat :=
  (rows.filter fun r => r.is_active).length

/-- States of the model_metadata table reachable from the empty table by
atomic promotions. -/
inductive MetaReachable : List ModelMetadataRow → Prop where
  | init : MetaReachable []
  | promoteStep (rows : List ModelMetadataRow) (newRow : ModelMetadataRow) :
      MetaReachable rows → MetaReachable (promote rows newRow)

/-- Helper: after a promotion exactly one row is active. -/
theorem countActive_promote (rows : List ModelMetadataRow)
    (newRow : ModelMetadataRow) :
    countActive (promote rows newRow) = 1 := by
  have hmap : (rows.map fun r =>
      if r.is_active then { r with is_active := false } else r).filter
        (fun r => r.is_active) = [] := by
    rw [List.filter_eq_nil_iff]
    intro a ha
    rw [List.mem_map] at ha
    obtain ⟨r, _, rfl⟩ := ha
    by_cases h : r.is_active <;> simp [h]
  unfold countActive promote
  rw [List.filter_cons_of_pos (by rfl), hmap]
  rfl

/-- C6: every reachable state of the model_metadata table has at most
one active row, and a promotion is a single atomic transition leaving
exactly one active row (no zero-or-partial flip with two active rows is
reachable). -/
theorem at_most_one_active_model (rows : List ModelMetadataRow)
    (h : MetaReachable rows) :
    countActive rows ≤ 1
    ∧ ∀ newRow : ModelMetadataRow,
        countActive (promote rows newRow) = 1 := by
  refine ⟨?_, fun newRow => countActive_promote rows newRow⟩
  induction h with
  | init => decide
  | promoteStep rows2 newRow _ _ =>
      exact le_of_eq (countActive_promote rows2 newRow)

/-- Example row for the C6 witness. -/
def sampleModelRow : ModelMetadataRow :=
  { version := "v20240101_120000", accuracy := 9 / 10, f1_score := 9 / 10,
    confidence_threshold := 6 / 10, training_timestamp := 0,
    is_active := false }

/-- Witness for C6 at the state reached by one promotion from the empty
table. -/
theorem at_most_one_active_model_witness :
    countActive (promote [] sampleModelRow) ≤ 1 :=
  (at_most_one_active_model (promote [] sampleModelRow)
    (MetaReachable.promoteStep [] sampleModelRow MetaReachable.init)).1

end IntelRouter

namespace IntelRouter

/-- Row of the ml_data table (ml_data_setup.sql): the full query text,
the asserted difficulty and the timestamp of a ground-truth sample. -/
structure MLDataSample where
  query_text : String
  difficulty : Tier
  created_at : Nat
deriving DecidableEq, Repr

/-- Write events of the persistence layer: explicit user feedback, an
accepted user override (both carrying the query text and asserted
label), or the logging of an inference routing decision. -/
inductive Event where
  | feedback (query_text : String) (label : Tier) (now : Nat)
  | acceptedOverride (query_text : String) (label : Tier) (now : Nat)
  | inference (d : Decision)
deriving DecidableEq, Repr

/-- Persistent store: the queries table (inference log) and the ml_data
table (ground truth), genuinely separate namespaces. -/
structure Store where
  queries : List Decision
  ml_data : List MLDataSample
deriving DecidableEq, Repr

/-- Modelled from the spec: the write paths.  The Feedback Collector and
the accepted-override path append the asserted sample to ml_data and do
not touch queries; the Routing Decision Logger appends to queries and
does not touch ml_data.  No path copies predictions from the inference
log into ml_data. -/
def stepEvent (s : Store) (e : Event) : Store :=
  match e with
  | Event.feedback q l n =>
      { s with ml_data := s.ml_data ++
          [{ query_text := q, difficulty := l, created_at := n }] }
  | Event.acceptedOverride q l n =>
      { s with ml_data := s.ml_data ++
          [{ query_text := q, difficulty := l, created_at := n }] }
  | Event.inference d => { s with queries := s.queries ++ [d] }

/-- Application of a sequence of write events to a store. -/
def applyEvents (s : Store) (evs : List Event) : Store :=
  evs.foldl stepEvent s

/-- Ground-truth samples carried by the feedback and accepted-override
events of a sequence, ignoring inference events. -/
def collectGroundTruth (evs : List Event) : List MLDataSample :=
  match evs with
  | [] => []
  | Event.feedback q l n :: rest =>
      { query_text := q, difficulty := l, created_at := n }
        :: collectGroundTruth rest
  | Event.acceptedOverride q l n :: rest =>
      { query_text := q, difficulty := l, created_at := n }
        :: collectGroundTruth rest
  | Event.inference _ :: rest => collectGroundTruth rest

/-- C7: after any sequence of write events the ml_data table holds
exactly its prior rows plus the samples of the feedback and
accepted-override events, independently of the queries table content and
of every inference event; and the feedback and override write paths
never touch the queries table. -/
theorem ml_data_ground_truth_only :
    (∀ (evs : List Event) (qs : List Decision) (ms : List MLDataSample),
      (applyEvents { queries := qs, ml_data := ms } evs).ml_data
        = ms ++ collectGroundTruth evs)
    ∧ (∀ (s : Store) (q : String) (l : Tier) (n : Nat),
        (stepEvent s (Event.feedback q l n)).queries = s.queries
        ∧ (stepEvent s (Event.acceptedOverride q l n)).queries
            = s.queries) := by
  constructor
  · intro evs
    induction evs with
    | nil => intro qs ms; simp [applyEvents, collectGroundTruth]
    | cons e rest ih =>
        intro qs ms
        cases e with
        | feedback q l n =>
            show (applyEvents _ rest).ml_data = _
            rw [ih]
            simp [collectGroundTruth, stepEvent]
        | acceptedOverride q l n =>
            show (applyEvents _ rest).ml_data = _
            rw [ih]
            simp [collectGroundTruth, stepEvent]
        | inference d =>
            show (applyEvents _ rest).ml_data = _
            rw [ih]
            simp [collectGroundTruth, stepEvent]
  · intro s q l n
    exact ⟨rfl, rfl⟩

end IntelRouter

namespace IntelRouter

/-- Commit operations of the Usage Ledger: the only way rows enter the
usage_logs table. -/
inductive LedgerOp where
  | commit (uid model : String) (difficulty : Tier)
      (tokens_in tokens_out : Nat) (cost : ℚ) (now : Nat)
deriving DecidableEq, Repr

/-- Modelled from the spec: the Usage Ledger commit appends one
UsageRecord whose total_tokens is computed as tokens_in plus tokens_out
at write time; existing rows are never modified or removed. -/
def ledgerStep (log : List UsageRecord) (op : LedgerOp) :
    List UsageRecord :=
  match op with
  | LedgerOp.commit uid model d tin tout c now =>
      log ++ [{ user_id := uid, model_name := model, difficulty := d,
                tokens_in := tin, tokens_out := tout,
                total_tokens := tin + tout, cost := c, created_at := now }]

/-- Usage-log contents after a sequence of commits from the empty
table. -/
def applyLedger (ops : List LedgerOp) : List UsageRecord :=
  ops.foldl ledgerStep []

/-- Helper: a committed row stays in the log under any later commit. -/
theorem mem_ledgerStep_of_mem (log : List UsageRecord) (op : LedgerOp)
    (r : UsageRecord) (h : r ∈ log) : r ∈ ledgerStep log op := by
  cases op with
  | commit uid model d tin tout c now => exact List.mem_append_left _ h

/-- Helper: a committed row stays in the log under any sequence of later
commits. -/
theorem mem_foldl_ledger (ops : List LedgerOp) (log : List UsageRecord)
    (r : UsageRecord) (h : r ∈ log) : r ∈ ops.foldl ledgerStep log := by
  induction ops generalizing log with
  | nil => exact h
  | cons op rest ih =>
      exact ih (ledgerStep log op) (mem_ledgerStep_of_mem log op r h)

/-- Helper: the total-tokens equation is an inductive invariant of the
ledger. -/
theorem ledger_total_invariant_aux (ops : List LedgerOp)
    (log : List UsageRecord)
    (h : ∀ r ∈ log, r.total_tokens = r.tokens_in + r.tokens_out) :
    ∀ r ∈ ops.foldl ledgerStep log,
      r.total_tokens = r.tokens_in + r.tokens_out := by
  induction ops generalizing log with
  | nil => exact h
  | cons op rest ih =>
      intro r hr
      refine ih (ledgerStep log op) ?_ r hr
      intro x hx
      cases op with
      | commit uid model d tin tout c now =>
          rcases List.mem_append.mp hx with hx | hx
          · exact h x hx
          · rw [List.mem_singleton] at hx
            subst hx
            rfl

/-- C8: every committed UsageRecord satisfies total_tokens equal to
tokens_in plus tokens_out, at write time and forever after: the record
is still present, unchanged, after any further sequence of commits. -/
theorem usage_record_total_tokens_invariant (ops moreOps : List LedgerOp)
    (r : UsageRecord) (h : r ∈ applyLedger ops) :
    r.total_tokens = r.tokens_in + r.tokens_out
    ∧ r ∈ applyLedger (ops ++ moreOps) := by
  constructor
  · exact ledger_total_invariant_aux ops []
      (by intro x hx; cases hx) r h
  · unfold applyLedger
    rw [List.foldl_append]
    exact mem_foldl_ledger moreOps (applyLedger ops) r h

/-- Example commit for the C8 witness. -/
def sampleLedgerOps : List LedgerOp :=
  [LedgerOp.commit "u" "m" Tier.EASY 3 4 1 0]

/-- The record produced by the example commit of sampleLedgerOps. -/
def sampleCommittedRecord : UsageRecord :=
  { user_id := "u", model_name := "m", difficulty := Tier.EASY,
    tokens_in := 3, tokens_out := 4, total_tokens := 7, cost := 1,
    created_at := 0 }

/-- Witness for C8 on the example commit, persisting through one more
commit. -/
theorem usage_record_total_tokens_invariant_witness :
    sampleCommittedRecord.total_tokens
        = sampleCommittedRecord.tokens_in + sampleCommittedRecord.tokens_out
    ∧ sampleCommittedRecord ∈ applyLedger (sampleLedgerOps ++ sampleLedgerOps) :=
  usage_record_total_tokens_invariant sampleLedgerOps sampleLedgerOps
    sampleCommittedRecord (by decide)

end IntelRouter

namespace IntelRouter

/-- Column names of the queries table, from database_setup.sql. -/
def queriesColumns : List String :=
  ["id", "user_id", "algorithmic_label", "ml_label", "final_label",
   "routing_source", "model_name", "created_at"]

/-- Column names the migration script drops from a pre-existing queries
table (ALTER TABLE queries DROP COLUMN IF EXISTS query_text). -/
def queriesMigrationDroppedColumns : List String := ["query_text"]

/-- Column names of the ml_data table, from ml_data_setup.sql; the query
column holds the full query text of a ground-truth sample. -/
def mlDataColumns : List String :=
  ["id", "query", "difficulty", "created_at"]

/-- C9: the queries table schema has no query-text column, the migration
explicitly drops any pre-existing query_text column, and the full query
text lives only in the separate ml_data table. -/
theorem query_text_not_persisted_in_queries :
    ("query_text" ∉ queriesColumns ∧ "query" ∉ queriesColumns)
    ∧ "query_text" ∈ queriesMigrationDroppedColumns
    ∧ "query" ∈ mlDataColumns := by
  decide

/-- Method names defined on the exported api object of the frontend API
client. -/
def apiMethods : List String :=
  ["submitQuery", "getMe", "getUsageToday", "getQueryHistory",
   "getOverrideStatus", "getAdminMetrics", "getAdminCosts",
   "getAdminRoutingStats"]

/-- Name of the api-client method the FeedbackWidget feedback mutation
invokes when the user submits feedback. -/
def feedbackWidgetApiMethod : String := "submitFeedback"

/-- C10 at the failing input: the method the FeedbackWidget invokes on
every feedback submission is not defined on the exported api object, so
the submission fails in the client before any HTTP request is sent. -/
theorem submitFeedback_not_defined_on_api :
    feedbackWidgetApiMethod ∉ apiMethods := by
  decide

end IntelRouter
